import Mathlib

/-!
Shallow embedding of the e-commerce backend (Express + PostgreSQL routes):
auth signup, product listing/update/create, category create, cart add/remove,
order placement and listing.  Monetary values (SQL `DECIMAL(10,2)` columns and
the JS numbers produced by `parseFloat`) are modelled as rationals; SQL rows
are modelled as Lean structures and tables as lists of rows, in table order.
-/

namespace ECom

/-- A cart line item as stored in the `carts.items` JSONB array:
`{ productId, quantity, price }` where `price` is the line price captured at
add time (`product.price * quantity` at the moment of the first add). -/
structure CartItem where
  productId : Int
  quantity : Int
  price : ℚ
  deriving Repr, DecidableEq

/-- A row of the `products` table. The `createTables` DDL declares
`image_url TEXT NOT NULL`, so every stored row carries a string URL; a write
attempting to store `null` is rejected by the store (modelled in
`createProduct` and `updateProduct`). -/
structure Product where
  id : Int
  name : String
  description : String
  price : ℚ
  stock : Int
  category_id : Int
  image_url : String
  deriving Repr, DecidableEq

/-- A row of the `categories` table. -/
structure Category where
  id : Int
  name : String
  description : Option String
  deriving Repr, DecidableEq

/-- A row of the `users` table; `password` holds the stored (hashed) credential. -/
structure UserRow where
  id : Int
  email : String
  password : String
  role : String
  deriving Repr, DecidableEq

/-- A row of the `carts` table: one JSONB item array per user. -/
structure CartRow where
  user_id : Int
  items : List CartItem
  deriving Repr, DecidableEq

/-- A row of the `orders` table; `order_date` is the `CURRENT_TIMESTAMP`
default, modelled as a logical clock value. -/
structure OrderRow where
  id : Int
  user_id : Int
  items : List CartItem
  total_price : ℚ
  order_date : Nat
  deriving Repr, DecidableEq

/-- The relational store: the five tables created by `createTables`, the
`SERIAL` counters feeding fresh primary keys, and a logical clock supplying
`CURRENT_TIMESTAMP` values (strictly increasing across inserts). -/
structure DB where
  users : List UserRow
  categories : List Category
  products : List Product
  carts : List CartRow
  orders : List OrderRow
  nextUserId : Int
  nextCategoryId : Int
  nextProductId : Int
  nextOrderId : Int
  clock : Nat
  deriving Repr, DecidableEq

/-- The authenticated identity decoded from the JWT by `authenticateJWT`:
`req.user = { userId, role }`. -/
structure Identity where
  userId : Int
  role : String
  deriving Repr, DecidableEq

/-- The lookup `SELECT price FROM products WHERE id = $1` (first matching row). -/
def findProduct (db : DB) (pid : Int) : Option Product :=
  db.products.find? (fun p => p.id == pid)

/-- The lookup `SELECT * FROM carts WHERE user_id = $1` (first matching row). -/
def findCart (db : DB) (uid : Int) : Option CartRow :=
  db.carts.find? (fun c => c.user_id == uid)

/-- The running total `cartItems.reduce((sum, item) => sum + item.price, 0)`. -/
def cartTotal (items : List CartItem) : ℚ :=
  items.foldl (fun sum item => sum + item.price) 0

/-- The statement `UPDATE carts SET items = $1 WHERE user_id = $2`. -/
def setCartItems (db : DB) (uid : Int) (newItems : List CartItem) : DB :=
  { db with
    carts := db.carts.map (fun c =>
      if c.user_id == uid then { c with items := newItems } else c) }

/-- The mutation performed when `findIndex` hits an existing line:
`cartItems[existingItemIndex].quantity += quantity` — only the first line with
this product id has its quantity bumped; its `price` field is left untouched. -/
def bumpFirst (pid : Int) (quantity : Int) : List CartItem → List CartItem
  | [] => []
  | item :: rest =>
    if item.productId == pid then
      { item with quantity := item.quantity + quantity } :: rest
    else
      item :: bumpFirst pid quantity rest

/-- Outcome of `POST /cart` (addItem). -/
inductive AddItemResult where
  /-- 400: express-validator rejection (`quantity` below 1). -/
  | badRequest
  /-- 404: `Product not found`. -/
  | notFound
  /-- 500: the handler threw (e.g. reading `.items` of a missing cart row). -/
  | serverError
  /-- 200: `{ message, totalPrice }`. -/
  | ok (totalPrice : ℚ)
  deriving Repr, DecidableEq

/-- Handler of `POST /cart` (`cart.js`): validates `quantity >= 1`, reads the
product's current price, captures `itemPrice = price * quantity`, then either
bumps the quantity of the first existing line for this product (leaving that
line's captured price untouched) or pushes a new line carrying `itemPrice`;
finally stores the items and answers with the sum of all line prices. -/
def addItem (db : DB) (uid : Int) (productId : Int) (quantity : Int) :
    AddItemResult × DB :=
  if quantity < 1 then (.badRequest, db)
  else
    match findProduct db productId with
    | none => (.notFound, db)
    | some product =>
      let price := product.price
      let itemPrice := price * (quantity : ℚ)
      match findCart db uid with
      | none => (.serverError, db)
      | some cart =>
        let cartItems := cart.items
        let newItems :=
          if cartItems.any (fun item => item.productId == productId) then
            bumpFirst productId quantity cartItems
          else
            cartItems ++ [{ productId := productId, quantity := quantity,
                            price := itemPrice }]
        let totalPrice := cartTotal newItems
        (.ok totalPrice, setCartItems db uid newItems)

/-- Outcome of `DELETE /cart/:productId` (removeItem). -/
inductive RemoveItemResult where
  /-- 500: the handler threw (missing cart row). -/
  | serverError
  /-- 200: `{ message, totalPrice }`. -/
  | ok (totalPrice : ℚ)
  deriving Repr, DecidableEq

/-- Handler of `DELETE /cart/:productId` (`cart.js`): filters out every line whose
`productId` equals the path parameter, recomputes the total as the sum of the
remaining line prices, stores the items, and always answers 200. -/
def removeItem (db : DB) (uid : Int) (productId : Int) :
    RemoveItemResult × DB :=
  match findCart db uid with
  | none => (.serverError, db)
  | some cart =>
    let newItems := cart.items.filter (fun item => item.productId != productId)
    let totalPrice := cartTotal newItems
    (.ok totalPrice, setCartItems db uid newItems)

/-- Outcome of `POST /orders` (placeOrder). -/
inductive PlaceOrderResult where
  /-- 400: express-validator rejection. -/
  | badRequest
  /-- 201: the inserted order row (`RETURNING ...`). -/
  | created (order : OrderRow)
  deriving Repr, DecidableEq

/-- The `POST /orders` validator chain: `items` a non-empty array, each
`quantity >= 1`, and `total_price >= 0`.  Item prices are not validated. -/
def validOrderItems (items : List CartItem) : Bool :=
  decide (1 ≤ items.length) && items.all (fun i => decide (1 ≤ i.quantity))

/-- Handler of `POST /orders` (the orders router): after validation, inserts
`(user_id, items, total_price)` exactly as supplied — `total_price` comes from
the request body and is not compared with the sum of the item prices — with
`order_date` defaulting to the current timestamp. -/
def placeOrder (db : DB) (uid : Int) (items : List CartItem)
    (total_price : ℚ) : PlaceOrderResult × DB :=
  if (validOrderItems items && decide (0 ≤ total_price)) = false then
    (.badRequest, db)
  else
    let o : OrderRow :=
      { id := db.nextOrderId, user_id := uid, items := items,
        total_price := total_price, order_date := db.clock }
    (.created o,
     { db with orders := db.orders ++ [o], nextOrderId := db.nextOrderId + 1,
               clock := db.clock + 1 })

/-- Insertion step for `ORDER BY order_date DESC`: keeps already-greater dates
in front. -/
def insertByDateDesc (o : OrderRow) : List OrderRow → List OrderRow
  | [] => [o]
  | x :: xs =>
    if o.order_date ≤ x.order_date then x :: insertByDateDesc o xs
    else o :: x :: xs

/-- Sorting by `order_date DESC` (insertion sort). -/
def sortByDateDesc (l : List OrderRow) : List OrderRow :=
  l.foldr insertByDateDesc []

/-- Handler of `GET /orders`:
`SELECT * FROM orders WHERE user_id = $1 ORDER BY order_date DESC`. -/
def listOrders (db : DB) (uid : Int) : List OrderRow :=
  sortByDateDesc (db.orders.filter (fun o => o.user_id == uid))

/-- The query string of `GET /products/list`; `none` models an omitted
parameter (an omitted or empty parameter is falsy in the handler's
`if (minPrice) ...` guards, so no clause is appended for it). -/
structure ListQuery where
  page : Option Int
  limit : Option Int
  minPrice : Option ℚ
  maxPrice : Option ℚ
  category : Option Int
  search : Option String
  deriving Repr

/-- A constraint applied only when the optional parameter was supplied
(the handler's truthiness guards and the validators' `.optional()`). -/
def optionHolds {α : Type} (o : Option α) (f : α → Bool) : Bool :=
  match o with
  | none => true
  | some x => f x

/-- The express-validator chain of `GET /products/list`: `page` and `limit`
must be at least 1 when supplied, `minPrice` and `maxPrice` non-negative. -/
def validListQuery (q : ListQuery) : Bool :=
  optionHolds q.page (fun p => decide (1 ≤ p)) &&
  optionHolds q.limit (fun l => decide (1 ≤ l)) &&
  optionHolds q.minPrice (fun m => decide (0 ≤ m)) &&
  optionHolds q.maxPrice (fun m => decide (0 ≤ m))

/-- Whether `pat` occurs as a contiguous run inside `hay`. -/
def charsContain (pat : List Char) : List Char → Bool
  | [] => pat.isEmpty
  | c :: rest => pat.isPrefixOf (c :: rest) || charsContain pat rest

/-- The clause `name ILIKE '%search%'`: case-insensitive containment of `pat` in `hay`. -/
def iContains (hay pat : String) : Bool :=
  charsContain pat.toLower.data hay.toLower.data

/-- The `whereClause` built once in the `/list` handler and shared by the page
query and the count query: `WHERE 1=1` with one `AND` clause appended per
supplied filter. -/
def whereMatches (q : ListQuery) (p : Product) : Bool :=
  optionHolds q.minPrice (fun m => decide (m ≤ p.price)) &&
  optionHolds q.maxPrice (fun m => decide (p.price ≤ m)) &&
  optionHolds q.category (fun c => p.category_id == c) &&
  optionHolds q.search (fun s => iContains p.name s)

/-- The 200 body of `GET /products/list`. -/
structure ProductPage where
  products : List Product
  totalCount : Nat
  currentPage : Int
  totalPages : Nat
  deriving Repr, DecidableEq

/-- Outcome of `GET /products/list`. -/
inductive ListResult where
  /-- 400: express-validator rejection. -/
  | badRequest
  /-- 200 with the page payload. -/
  | ok (page : ProductPage)
  deriving Repr, DecidableEq

/-- Handler of `GET /products/list` (`products.js`): defaults `page = 1` and
`limit = 10`, computes `offset = (page - 1) * limit`, builds one `whereClause`,
runs the bounded page query (`LIMIT limit OFFSET offset`) and the unbounded
count query over that same clause, and answers with the slice, the count, the
current page, and `Math.ceil(totalCount / limit)` pages. -/
def listProducts (db : DB) (q : ListQuery) : ListResult :=
  if validListQuery q = false then .badRequest
  else
    let page := q.page.getD 1
    let limit := q.limit.getD 10
    let offset := (page - 1) * limit
    let filtered := db.products.filter (whereMatches q)
    let slice := (filtered.drop offset.toNat).take limit.toNat
    let totalCount := filtered.length
    .ok { products := slice, totalCount := totalCount, currentPage := page,
          totalPages := (totalCount + limit.toNat - 1) / limit.toNat }

/-- The request body of `POST /products` and `PUT /products/:id`. -/
structure ProductBody where
  name : String
  description : String
  price : ℚ
  stock : Int
  category_id : Int
  image : Option String
  deriving Repr, DecidableEq

/-- The express-validator chain shared by product create and update: `name`
and `description` non-empty, `price >= 0`, `stock >= 0`. -/
def validProductBody (b : ProductBody) : Bool :=
  b.name != "" && b.description != "" &&
  decide (0 ≤ b.price) && decide (0 ≤ b.stock)

/-- Outcome of `PUT /products/:id`. -/
inductive UpdateResult where
  /-- 400: express-validator rejection. -/
  | badRequest
  /-- 403: `authorizeAdmin` rejected a non-admin identity. -/
  | forbidden
  /-- 404: no row matched the `UPDATE ... WHERE id = $7`. -/
  | notFound
  /-- 500: the store rejected the write (the `NOT NULL` constraint on
  `image_url` fired) and the handler caught it. -/
  | serverError
  /-- 200: the updated row (`RETURNING *`). -/
  | ok (product : Product)
  deriving Repr, DecidableEq

/-- Handler of `PUT /products/:id` (`products.js`): `authorizeAdmin` runs before
the validators and the handler; `imageUrl` starts as `null` and is replaced by
the upload result only when the body carries an `image`; the single
`UPDATE ... SET ... image_url = $6 ...` then overwrites every column of any
matching row.  When no row matches, the statement succeeds with an empty
`RETURNING` and the handler answers 404; when a row matches and `imageUrl` is
`null`, the assignment violates the schema's `image_url TEXT NOT NULL`
constraint, the statement aborts leaving the row unchanged, and the generic
`catch` answers 500.  `upload` models the external image-storage call (request
image in, hosted URL out). -/
def updateProduct (db : DB) (identity : Identity) (pid : Int)
    (b : ProductBody) (upload : String → String) : UpdateResult × DB :=
  if identity.role != "admin" then (.forbidden, db)
  else if validProductBody b = false then (.badRequest, db)
  else
    let imageUrl : Option String := b.image.map upload
    if db.products.any (fun p => p.id == pid) = false then (.notFound, db)
    else
      match imageUrl with
      | none => (.serverError, db)
      | some url =>
        let newProducts := db.products.map (fun p =>
          if p.id == pid then
            { p with name := b.name, description := b.description,
                     price := b.price, stock := b.stock,
                     category_id := b.category_id, image_url := url }
          else p)
        match newProducts.find? (fun p => p.id == pid) with
        | none => (.notFound, db)
        | some p => (.ok p, { db with products := newProducts })

/-- Outcome of `POST /products`. -/
inductive CreateProductResult where
  /-- 400: express-validator rejection. -/
  | badRequest
  /-- 403: `authorizeAdmin` rejected a non-admin identity. -/
  | forbidden
  /-- 500: the store rejected the insert (the `NOT NULL` constraint on
  `image_url` fired because no URL was obtained) and the handler caught it. -/
  | serverError
  /-- 201: the inserted row (`RETURNING *`). -/
  | created (product : Product)
  deriving Repr, DecidableEq

/-- Handler of `POST /products` (`products.js`): `authorizeAdmin` runs before the
validators and the handler; an upload failure is swallowed by `.catch`, so
`upload` returns an optional URL and `imageUrl` stays `null` when the image is
omitted or its upload fails.  The `INSERT` then runs with that `imageUrl`;
under the schema's `image_url TEXT NOT NULL` a `null` value aborts the insert
and the generic `catch` answers 500.  Other database-level constraints (the
`category_id` foreign key) are not modelled. -/
def createProduct (db : DB) (identity : Identity) (b : ProductBody)
    (upload : String → Option String) : CreateProductResult × DB :=
  if identity.role != "admin" then (.forbidden, db)
  else if validProductBody b = false then (.badRequest, db)
  else
    let imageUrl : Option String :=
      match b.image with
      | none => none
      | some img => upload img
    match imageUrl with
    | none => (.serverError, db)
    | some url =>
      let p : Product :=
        { id := db.nextProductId, name := b.name, description := b.description,
          price := b.price, stock := b.stock, category_id := b.category_id,
          image_url := url }
      (.created p,
       { db with products := db.products ++ [p],
                 nextProductId := db.nextProductId + 1 })

/-- Outcome of `POST /categories`. -/
inductive CreateCategoryResult where
  /-- 400: express-validator rejection (empty name). -/
  | badRequest
  /-- 500: the `UNIQUE (name)` constraint fired and the handler caught it. -/
  | serverError
  /-- 201: the inserted row. -/
  | created (category : Category)
  deriving Repr, DecidableEq

/-- Handler of `POST /categories` (`categories.js`): the route stack is
`authenticateJWT` followed by the validators — the `authorizeAdmin` middleware
defined at the bottom of the file is never attached, so `identity.role` is
never inspected and any authenticated identity reaches the insert. -/
def createCategory (db : DB) (identity : Identity) (name : String)
    (description : Option String) : CreateCategoryResult × DB :=
  if name == "" then (.badRequest, db)
  else if db.categories.any (fun c => c.name == name) then (.serverError, db)
  else
    let c : Category :=
      { id := db.nextCategoryId, name := name, description := description }
    (.created c,
     { db with categories := db.categories ++ [c],
               nextCategoryId := db.nextCategoryId + 1 })

/-- The identity payload of a 201 signup response: `RETURNING id, email, role`
— the password column is never selected. -/
structure PublicUser where
  id : Int
  email : String
  role : String
  deriving Repr, DecidableEq

/-- Outcome of `POST /auth/signup`. -/
inductive SignupResult where
  /-- 400: express-validator rejection. -/
  | badRequest
  /-- 500: the handler caught a store error (`Failed to create user`). -/
  | serverError
  /-- 201: `User created successfully` with the public identity. -/
  | created (user : PublicUser)
  deriving Repr, DecidableEq

/-- The HTTP status each signup outcome is sent with. -/
def signupStatus : SignupResult → Nat
  | .badRequest => 400
  | .serverError => 500
  | .created _ => 201

/-- Model of the external `bcrypt.hash(password, saltRounds)` primitive: an
injective salted tagging of the password.  The only facts the development uses
are that the output determines its inputs and differs from the plaintext. -/
def bcryptHash (saltRounds : Nat) (pw : String) : String :=
  "$2b$" ++ toString saltRounds ++ "$" ++ pw

/-- Splits a character run at the first occurrence of `c`. -/
def breakAt (c : Char) : List Char → Option (List Char × List Char)
  | [] => none
  | x :: xs =>
    if x = c then some ([], xs)
    else
      match breakAt c xs with
      | none => none
      | some (l, r) => some (x :: l, r)

/-- Model of the external `validator.js` `isEmail` contract used by
`body("email").isEmail()`: a single `@` separating a non-empty local part from
a non-empty domain containing a dot. -/
def isEmailShape (s : String) : Bool :=
  match breakAt '@' s.data with
  | none => false
  | some (l, dom) =>
    !l.isEmpty && !dom.isEmpty && !dom.contains '@' && dom.contains '.'

/-- Handler of `POST /auth/signup` (`auth.js`): validates email shape, password
length at least 6, and role in `{admin, customer}`; then runs the `INSERT`
directly — there is no duplicate-email check, so an already-registered email
trips the `UNIQUE` constraint on `users.email` and lands in the generic
`catch`, answering 500.  On success the stored credential is the bcrypt hash
and the response carries `id, email, role` only. -/
def signup (db : DB) (email pw role : String) : SignupResult × DB :=
  if isEmailShape email = false then (.badRequest, db)
  else if pw.length < 6 then (.badRequest, db)
  else if (role == "admin" || role == "customer") = false then
    (.badRequest, db)
  else if db.users.any (fun u => u.email == email) then (.serverError, db)
  else
    let u : UserRow :=
      { id := db.nextUserId, email := email,
        password := bcryptHash 10 pw, role := role }
    (.created { id := u.id, email := email, role := role },
     { db with users := db.users ++ [u], nextUserId := db.nextUserId + 1 })

/-! Concrete fixtures used to witness the theorems on sample stores. -/

/-- Sample product: id 5, "Widget", price 10, stock 5, category 1. -/
def wProduct : Product :=
  { id := 5, name := "Widget", description := "w", price := 10, stock := 5,
    category_id := 1, image_url := "http://img/w" }

/-- Sample store: one customer (id 1) with an empty cart, one category, one
product. -/
def wDB : DB :=
  { users := [{ id := 1, email := "u@x.co", password := "h", role := "customer" }],
    categories := [{ id := 1, name := "Cat", description := none }],
    products := [wProduct],
    carts := [{ user_id := 1, items := [] }],
    orders := [],
    nextUserId := 2, nextCategoryId := 2, nextProductId := 6, nextOrderId := 1,
    clock := 0 }

/-- Sample store whose cart already holds a line for product 5 (quantity 2,
captured price 20). -/
def wDBline : DB :=
  { wDB with carts := [{ user_id := 1,
                         items := [{ productId := 5, quantity := 2, price := 20 }] }] }

/-- Sample store whose product carries the stored image URL
`http://img/old`. -/
def wDBimg : DB :=
  { wDB with products := [{ wProduct with image_url := "http://img/old" }] }

/-- Second sample product. -/
def wGadget : Product :=
  { id := 6, name := "Gadget", description := "g", price := 7, stock := 1,
    category_id := 1, image_url := "http://img/g" }

/-- Sample store with two products, for the pagination counterexample. -/
def wDBpage : DB :=
  { wDB with products := [wProduct, wGadget] }

/-- Sample store with an already-registered email, for the signup conflict
case. -/
def wDBdup : DB :=
  { wDB with users := [{ id := 1, email := "a@b.com", password := "x",
                         role := "customer" }] }

/-- Sample store with two placed orders (dates 3 and 7) for user 1. -/
def wDBorders : DB :=
  { wDB with
      orders := [{ id := 1, user_id := 1,
                   items := [{ productId := 5, quantity := 1, price := 10 }],
                   total_price := 10, order_date := 3 },
                 { id := 2, user_id := 1,
                   items := [{ productId := 5, quantity := 2, price := 20 }],
                   total_price := 20, order_date := 7 }],
      nextOrderId := 3, clock := 8 }

/-- Sample admin and customer identities. -/
def wAdmin : Identity := { userId := 9, role := "admin" }

/-- Sample customer identity. -/
def wCustomer : Identity := { userId := 1, role := "customer" }

/-- Sample product body (no image supplied). -/
def wBody : ProductBody :=
  { name := "Widget v2", description := "w2", price := 15, stock := 3,
    category_id := 1, image := none }

/-- Sample product body that does supply an image. -/
def wBodyImg : ProductBody :=
  { wBody with image := some "newpic" }

/-! Helper lemmas about the embedded operations. -/

/-- The JS `reduce` total is the sum of the line prices. -/
lemma cartTotal_eq_sum (items : List CartItem) :
    cartTotal items = (items.map (fun i => i.price)).sum := by
  have aux : ∀ (l : List CartItem) (init : ℚ),
      l.foldl (fun sum item => sum + item.price) init =
        init + (l.map (fun i => i.price)).sum := by
    intro l
    induction l with
    | nil => intro init; simp
    | cons a t ih =>
      intro init
      simp only [List.foldl_cons, List.map_cons, List.sum_cons, ih, add_assoc]
  simpa using aux items 0

/-- A `find?` over a row-wise conditional update commutes with the update when
the update preserves the selection test. -/
lemma find?_map_preserve {α : Type} (l : List α) (test : α → Bool) (f : α → α)
    (hf : ∀ a, test (f a) = test a) :
    (l.map (fun a => if test a then f a else a)).find? test =
      (l.find? test).map f := by
  induction l with
  | nil => rfl
  | cons a t ih =>
    by_cases h : test a = true
    · simp [List.find?, h, hf a]
    · have h' : test a = false := by
        cases ha : test a
        · rfl
        · exact absurd ha h
      simp [List.find?, h', ih]

/-- Reading back the cart after `UPDATE carts SET items` yields the same row
with the new item array. -/
lemma findCart_setCartItems (db : DB) (uid : Int) (its : List CartItem) :
    findCart (setCartItems db uid its) uid =
      (findCart db uid).map (fun c => { c with items := its }) := by
  unfold findCart setCartItems
  exact find?_map_preserve db.carts (fun c => c.user_id == uid)
    (fun c => { c with items := its }) (fun c => rfl)

/-- If every line differs from `pid`, the `findIndex` probe misses. -/
lemma any_eq_false_of_all_ne (items : List CartItem) (pid : Int)
    (h : items.all (fun i => i.productId != pid) = true) :
    items.any (fun i => i.productId == pid) = false := by
  induction items with
  | nil => rfl
  | cons a t ih =>
    simp only [List.all_cons, Bool.and_eq_true, bne_iff_ne, ne_eq] at h
    simp only [List.any_cons, Bool.or_eq_false_iff]
    exact ⟨by simpa using h.1, ih (by simpa using h.2)⟩

/-- The `findIndex` probe hits the first matching line: bumping skips a miss run and
rewrites exactly the first hit. -/
lemma bumpFirst_append (pid q : Int) (pre : List CartItem) (item0 : CartItem)
    (post : List CartItem)
    (hpre : pre.all (fun i => i.productId != pid) = true)
    (h0 : item0.productId = pid) :
    bumpFirst pid q (pre ++ item0 :: post) =
      pre ++ { item0 with quantity := item0.quantity + q } :: post := by
  induction pre with
  | nil =>
    simp only [List.nil_append, bumpFirst]
    rw [if_pos (by simpa using h0)]
  | cons a t ih =>
    simp only [List.all_cons, Bool.and_eq_true] at hpre
    have ha : (a.productId == pid) = false := by
      simpa [bne_iff_ne] using hpre.1
    simp only [List.cons_append, bumpFirst, ha, Bool.false_eq_true, if_false,
      List.cons.injEq, true_and]
    exact ih hpre.2

/-- Removing an absent product id filters nothing out. -/
lemma filter_ne_eq_self (items : List CartItem) (pid : Int)
    (h : items.all (fun i => i.productId != pid) = true) :
    items.filter (fun i => i.productId != pid) = items := by
  rw [List.filter_eq_self]
  intro a ha
  exact (List.all_eq_true.mp h) a ha

/-- The route `PUT /products/:id` touches only the `products` table. -/
lemma updateProduct_frame (db : DB) (identity : Identity) (pid : Int)
    (b : ProductBody) (upload : String → String) :
    ((updateProduct db identity pid b upload).2).carts = db.carts ∧
    ((updateProduct db identity pid b upload).2).orders = db.orders ∧
    ((updateProduct db identity pid b upload).2).users = db.users := by
  refine ⟨?_, ?_, ?_⟩ <;>
    (unfold updateProduct
     split
     · rfl
     · split
       · rfl
       · dsimp only
         split
         · rfl
         · split
           · rfl
           · split <;> rfl)

/-- The route `POST /cart` touches only the `carts` table. -/
lemma addItem_frame (db : DB) (uid pid q : Int) :
    ((addItem db uid pid q).2).orders = db.orders ∧
    ((addItem db uid pid q).2).products = db.products := by
  unfold addItem
  split
  · exact ⟨rfl, rfl⟩
  · split
    · exact ⟨rfl, rfl⟩
    · split
      · exact ⟨rfl, rfl⟩
      · exact ⟨rfl, rfl⟩

/-- The route `DELETE /cart/:productId` touches only the `carts` table. -/
lemma removeItem_frame (db : DB) (uid pid : Int) :
    ((removeItem db uid pid).2).orders = db.orders ∧
    ((removeItem db uid pid).2).products = db.products := by
  unfold removeItem
  split
  · exact ⟨rfl, rfl⟩
  · exact ⟨rfl, rfl⟩

/-- The route `POST /products` never touches the `orders` table. -/
lemma createProduct_orders (db : DB) (identity : Identity) (b : ProductBody)
    (upload : String → Option String) :
    ((createProduct db identity b upload).2).orders = db.orders := by
  unfold createProduct
  split
  · rfl
  · split
    · rfl
    · dsimp only
      split <;> rfl

/-- The route `POST /categories` never touches the `orders` table. -/
lemma createCategory_orders (db : DB) (identity : Identity) (name : String)
    (d : Option String) :
    ((createCategory db identity name d).2).orders = db.orders := by
  unfold createCategory
  split
  · rfl
  · split <;> rfl

/-- The route `POST /auth/signup` never touches the `orders` table. -/
lemma signup_orders (db : DB) (email pw role : String) :
    ((signup db email pw role).2).orders = db.orders := by
  unfold signup
  split
  · rfl
  · split
    · rfl
    · split
      · rfl
      · split <;> rfl

/-- Membership in the insertion step. -/
lemma mem_insertByDateDesc {a o : OrderRow} {l : List OrderRow} :
    a ∈ insertByDateDesc o l ↔ a = o ∨ a ∈ l := by
  induction l with
  | nil => simp [insertByDateDesc]
  | cons x xs ih =>
    simp only [insertByDateDesc]
    split
    · simp only [List.mem_cons, ih]
      tauto
    · exact List.mem_cons

/-- The insertion step is a permutation of consing. -/
lemma insertByDateDesc_perm (o : OrderRow) (l : List OrderRow) :
    (insertByDateDesc o l).Perm (o :: l) := by
  induction l with
  | nil => exact List.Perm.refl _
  | cons x xs ih =>
    simp only [insertByDateDesc]
    split
    · exact (List.Perm.cons x ih).trans (List.Perm.swap o x xs)
    · exact List.Perm.refl _

/-- Sorting by date is a permutation of the input rows. -/
lemma sortByDateDesc_perm (l : List OrderRow) :
    (sortByDateDesc l).Perm l := by
  induction l with
  | nil => exact List.Perm.refl _
  | cons x xs ih =>
    have step : sortByDateDesc (x :: xs) = insertByDateDesc x (sortByDateDesc xs) := rfl
    rw [step]
    exact (insertByDateDesc_perm x (sortByDateDesc xs)).trans (List.Perm.cons x ih)

/-- The insertion step preserves descending date order. -/
lemma insertByDateDesc_sorted (o : OrderRow) (l : List OrderRow)
    (h : List.Sorted (fun a b : OrderRow => b.order_date ≤ a.order_date) l) :
    List.Sorted (fun a b : OrderRow => b.order_date ≤ a.order_date)
      (insertByDateDesc o l) := by
  induction l with
  | nil => simp [insertByDateDesc]
  | cons x xs ih =>
    rw [List.sorted_cons] at h
    simp only [insertByDateDesc]
    split
    · rename_i hle
      rw [List.sorted_cons]
      refine ⟨?_, ih h.2⟩
      intro b hb
      rcases mem_insertByDateDesc.mp hb with hb | hb
      · subst hb; exact hle
      · exact h.1 b hb
    · rename_i hgt
      push_neg at hgt
      rw [List.sorted_cons]
      refine ⟨?_, List.sorted_cons.mpr h⟩
      intro b hb
      rcases List.mem_cons.mp hb with hb | hb
      · subst hb; exact le_of_lt hgt
      · exact (h.1 b hb).trans (le_of_lt hgt)

/-- The sorted output of `ORDER BY order_date DESC`. -/
lemma sortByDateDesc_sorted (l : List OrderRow) :
    List.Sorted (fun a b : OrderRow => b.order_date ≤ a.order_date)
      (sortByDateDesc l) := by
  induction l with
  | nil => simp [sortByDateDesc]
  | cons x xs ih => exact insertByDateDesc_sorted x (sortByDateDesc xs) ih

/-- The `Math.ceil` of an exact rational division agrees with the natural-number
ceiling division `(a + b - 1) / b` used in the embedding. -/
lemma natCeil_cast_div (a b : ℕ) (hb : 0 < b) :
    ⌈(a : ℚ) / (b : ℚ)⌉₊ = (a + b - 1) / b := by
  have key : ∀ c : ℕ, (⌈(a : ℚ) / (b : ℚ)⌉₊ ≤ c ↔ (a + b - 1) / b ≤ c) := by
    intro c
    rw [Nat.ceil_le, div_le_iff₀ (by exact_mod_cast hb),
      Nat.div_le_iff_le_mul_add_pred hb]
    have hcb : b * c = c * b := Nat.mul_comm b c
    constructor
    · intro h
      have h' : a ≤ c * b := by exact_mod_cast h
      omega
    · intro h
      have h' : a ≤ c * b := by omega
      exact_mod_cast h'
  exact le_antisymm ((key _).mpr le_rfl) ((key _).mp le_rfl)

/-- Route `POST /cart` on an unknown product answers 404 and leaves the store
untouched. -/
lemma addItem_notFound (db : DB) (uid pid q : Int) (hq : 1 ≤ q)
    (hp : findProduct db pid = none) :
    addItem db uid pid q = (.notFound, db) := by
  unfold addItem
  rw [if_neg (by omega), hp]

/-- Route `POST /cart` when the cart already holds a line for the product: the first
such line's quantity is bumped, its captured price is untouched, and the
answer is the sum of the line prices. -/
lemma addItem_bump (db : DB) (uid pid q : Int) (prod : Product)
    (cart : CartRow) (pre : List CartItem) (item0 : CartItem)
    (post : List CartItem) (hq : 1 ≤ q)
    (hp : findProduct db pid = some prod)
    (hc : findCart db uid = some cart)
    (hsplit : cart.items = pre ++ item0 :: post)
    (hpre : pre.all (fun i => i.productId != pid) = true)
    (h0 : item0.productId = pid) :
    addItem db uid pid q =
      (.ok (((pre ++ { item0 with quantity := item0.quantity + q } :: post).map
          (fun i => i.price)).sum),
       setCartItems db uid
         (pre ++ { item0 with quantity := item0.quantity + q } :: post)) := by
  unfold addItem
  rw [if_neg (by omega), hp, hc]
  have hany : ((pre ++ item0 :: post).any (fun i => i.productId == pid)) = true := by
    simp only [List.any_append, List.any_cons, Bool.or_eq_true]
    exact Or.inr (Or.inl (by simpa using h0))
  simp only [hsplit, hany, if_true, bumpFirst_append pid q pre item0 post hpre h0,
    cartTotal_eq_sum]

/-- Route `POST /cart` when no line for the product exists: a new line carrying the
captured price `product.price * quantity` is appended, and the answer is the
sum of the line prices. -/
lemma addItem_fresh (db : DB) (uid pid q : Int) (prod : Product)
    (cart : CartRow) (hq : 1 ≤ q)
    (hp : findProduct db pid = some prod)
    (hc : findCart db uid = some cart)
    (hfresh : cart.items.all (fun i => i.productId != pid) = true) :
    addItem db uid pid q =
      (.ok (((cart.items ++
          [({ productId := pid, quantity := q,
              price := prod.price * (q : ℚ) } : CartItem)]).map
          (fun i => i.price)).sum),
       setCartItems db uid
         (cart.items ++
          [({ productId := pid, quantity := q,
              price := prod.price * (q : ℚ) } : CartItem)])) := by
  unfold addItem
  rw [if_neg (by omega), hp, hc]
  simp only [any_eq_false_of_all_ne cart.items pid hfresh, Bool.false_eq_true,
    if_false, cartTotal_eq_sum]

/-- Route `DELETE /cart/:productId` filters out the product's lines and answers with
the sum of the remaining line prices. -/
lemma removeItem_eq (db : DB) (uid pid : Int) (cart : CartRow)
    (hc : findCart db uid = some cart) :
    removeItem db uid pid =
      (.ok (((cart.items.filter (fun i => i.productId != pid)).map
          (fun i => i.price)).sum),
       setCartItems db uid (cart.items.filter (fun i => i.productId != pid))) := by
  unfold removeItem
  rw [hc]
  simp only [cartTotal_eq_sum]

/-- On a valid query, `GET /products/list` answers 200 with the page slice and
count both computed over the single shared `whereClause`. -/
lemma listProducts_ok (db : DB) (q : ListQuery)
    (hv : validListQuery q = true) :
    listProducts db q = .ok
      { products := ((db.products.filter (whereMatches q)).drop
            ((q.page.getD 1 - 1) * q.limit.getD 10).toNat).take
            (q.limit.getD 10).toNat,
        totalCount := (db.products.filter (whereMatches q)).length,
        currentPage := q.page.getD 1,
        totalPages := ((db.products.filter (whereMatches q)).length +
            (q.limit.getD 10).toNat - 1) / (q.limit.getD 10).toNat } := by
  unfold listProducts
  rw [if_neg (by simp [hv])]

/-- A valid query's effective limit is positive. -/
lemma validListQuery_limit_pos (q : ListQuery)
    (hv : validListQuery q = true) : 0 < (q.limit.getD 10).toNat := by
  unfold validListQuery at hv
  simp only [Bool.and_eq_true] at hv
  have h := hv.1.1.2
  cases hl : q.limit with
  | none => simp [hl]
  | some l =>
    rw [hl] at h
    simp only [optionHolds, decide_eq_true_eq] at h
    simp only [hl, Option.getD_some]
    omega

/-- A product found by id makes the handler's existence probe succeed. -/
lemma any_id_of_findProduct (db : DB) (pid : Int) (prod : Product)
    (hp : findProduct db pid = some prod) :
    db.products.any (fun p => p.id == pid) = true := by
  unfold findProduct at hp
  have hmem := List.mem_of_find?_eq_some hp
  have hpa := List.find?_some hp
  exact List.any_eq_true.mpr ⟨prod, hmem, hpa⟩

/-- Route `PUT /products/:id` for an admin with a valid body carrying an image
and an existing row: every column of the row, `image_url` included, is
overwritten with the freshly computed values, and the updated row is
returned. -/
lemma updateProduct_ok (db : DB) (identity : Identity) (pid : Int)
    (b : ProductBody) (prod : Product) (upload : String → String)
    (img : String)
    (hrole : identity.role = "admin") (hb : validProductBody b = true)
    (himg : b.image = some img)
    (hp : findProduct db pid = some prod) :
    updateProduct db identity pid b upload =
      (.ok { prod with name := b.name, description := b.description,
                       price := b.price, stock := b.stock,
                       category_id := b.category_id,
                       image_url := upload img },
       { db with products := db.products.map (fun p =>
           if p.id == pid then
             { p with name := b.name, description := b.description,
                      price := b.price, stock := b.stock,
                      category_id := b.category_id,
                      image_url := upload img }
           else p) }) := by
  unfold updateProduct
  rw [if_neg (by simp [hrole]), if_neg (by simp [hb])]
  have hany := any_id_of_findProduct db pid prod hp
  rw [if_neg (by simp [hany]), himg]
  have hfind :
      (db.products.map (fun p =>
        if p.id == pid then
          { p with name := b.name, description := b.description,
                   price := b.price, stock := b.stock,
                   category_id := b.category_id,
                   image_url := upload img }
        else p)).find? (fun p => p.id == pid) =
      some { prod with name := b.name, description := b.description,
                       price := b.price, stock := b.stock,
                       category_id := b.category_id,
                       image_url := upload img } := by
    have := find?_map_preserve db.products (fun p => p.id == pid)
      (fun p => { p with name := b.name, description := b.description,
                         price := b.price, stock := b.stock,
                         category_id := b.category_id,
                         image_url := upload img })
      (fun p => rfl)
    rw [show db.products.find? (fun p => p.id == pid) = some prod from hp] at this
    exact this
  dsimp only [Option.map_some']
  rw [hfind]

/-- Route `POST /orders` with a valid body inserts exactly the supplied items and
total, stamped with the current clock, and returns the inserted row. -/
lemma placeOrder_ok (db : DB) (uid : Int) (items : List CartItem) (total : ℚ)
    (hv : validOrderItems items = true) (ht : 0 ≤ total) :
    placeOrder db uid items total =
      (.created { id := db.nextOrderId, user_id := uid, items := items,
                  total_price := total, order_date := db.clock },
       { db with
           orders := db.orders ++
             [{ id := db.nextOrderId, user_id := uid, items := items,
                total_price := total, order_date := db.clock }],
           nextOrderId := db.nextOrderId + 1,
           clock := db.clock + 1 }) := by
  unfold placeOrder
  rw [if_neg (by simp [hv, ht])]

/-- An optional constraint holds iff it holds for the supplied value. -/
lemma optionHolds_iff {α : Type} (o : Option α) (f : α → Bool) :
    optionHolds o f = true ↔ ∀ x ∈ o, f x = true := by
  cases o <;> simp [optionHolds]

/-- The modelled bcrypt output never equals the plaintext password. -/
lemma bcryptHash_ne (n : Nat) (pw : String) : bcryptHash n pw ≠ pw := by
  intro h
  have hlen := congrArg String.length h
  have h4 : "$2b$".length = 4 := rfl
  have h1 : "$".length = 1 := rfl
  simp only [bcryptHash, String.length_append, h4, h1] at hlen
  omega

/-! Claim theorems, witnesses and counterexamples. -/

/-- C1: adding quantity `Q` of a product currently priced `P` to a cart with
no line for it captures a line price of exactly `P * Q`; a later
`updateProduct` — whatever identity, target product, body (hence price) and
upload it is given — leaves the cart line (and its captured price) and the
`orders` table (hence every placed order's total) unchanged. -/
theorem c1_price_capture_insulated
    (db : DB) (uid pid q : Int) (prod : Product) (cart : CartRow)
    (identity : Identity) (pid2 : Int) (b : ProductBody)
    (upload : String → String)
    (hq : 1 ≤ q)
    (hp : findProduct db pid = some prod)
    (hc : findCart db uid = some cart)
    (hfresh : cart.items.all (fun i => i.productId != pid) = true) :
    findCart (addItem db uid pid q).2 uid =
      some { cart with items := cart.items ++
              [{ productId := pid, quantity := q,
                 price := prod.price * (q : ℚ) }] } ∧
    findCart (updateProduct (addItem db uid pid q).2 identity pid2 b upload).2 uid =
      some { cart with items := cart.items ++
              [{ productId := pid, quantity := q,
                 price := prod.price * (q : ℚ) }] } ∧
    (updateProduct (addItem db uid pid q).2 identity pid2 b upload).2.orders =
      (addItem db uid pid q).2.orders := by
  have hadd := addItem_fresh db uid pid q prod cart hq hp hc hfresh
  have hfound : findCart (addItem db uid pid q).2 uid =
      some { cart with items := cart.items ++
              [{ productId := pid, quantity := q,
                 price := prod.price * (q : ℚ) }] } := by
    rw [hadd]
    dsimp only
    rw [findCart_setCartItems, hc]
    rfl
  obtain ⟨hcarts, horders, -⟩ :=
    updateProduct_frame (addItem db uid pid q).2 identity pid2 b upload
  refine ⟨hfound, ?_, horders⟩
  unfold findCart at hfound ⊢
  rw [hcarts]
  exact hfound

/-- C1 witness: on the sample store, adding 2 Widgets (price 10) captures a
line price of 20, and an admin price update to 15 leaves the line and the
orders untouched. -/
theorem c1_price_capture_insulated_witness :
    findCart (addItem wDB 1 5 2).2 1 =
      some { user_id := 1,
             items := [{ productId := 5, quantity := 2,
                         price := wProduct.price * (2 : ℚ) }] } ∧
    findCart (updateProduct (addItem wDB 1 5 2).2 wAdmin 5 wBody
        (fun s => s)).2 1 =
      some { user_id := 1,
             items := [{ productId := 5, quantity := 2,
                         price := wProduct.price * (2 : ℚ) }] } ∧
    (updateProduct (addItem wDB 1 5 2).2 wAdmin 5 wBody (fun s => s)).2.orders =
      (addItem wDB 1 5 2).2.orders :=
  c1_price_capture_insulated wDB 1 5 2 wProduct { user_id := 1, items := [] }
    wAdmin 5 wBody (fun s => s) (by decide) (by decide) (by decide) (by decide)

/-- C2: `addItem` answers 404 when the product is unknown; with an existing
line for the product it bumps that line's quantity and leaves its captured
price untouched; with no such line it appends a new line priced
`currentPrice * quantity`; in both success cases it answers with the sum of
all line prices. -/
theorem c2_addItem_spec :
    (∀ (db : DB) (uid pid q : Int), 1 ≤ q → findProduct db pid = none →
        addItem db uid pid q = (.notFound, db)) ∧
    (∀ (db : DB) (uid pid q : Int) (prod : Product) (cart : CartRow)
        (pre : List CartItem) (item0 : CartItem) (post : List CartItem),
        1 ≤ q → findProduct db pid = some prod → findCart db uid = some cart →
        cart.items = pre ++ item0 :: post →
        pre.all (fun i => i.productId != pid) = true →
        item0.productId = pid →
        addItem db uid pid q =
          (.ok (((pre ++ { item0 with quantity := item0.quantity + q } :: post).map
              (fun i => i.price)).sum),
           setCartItems db uid
             (pre ++ { item0 with quantity := item0.quantity + q } :: post))) ∧
    (∀ (db : DB) (uid pid q : Int) (prod : Product) (cart : CartRow),
        1 ≤ q → findProduct db pid = some prod → findCart db uid = some cart →
        cart.items.all (fun i => i.productId != pid) = true →
        addItem db uid pid q =
          (.ok (((cart.items ++
              [({ productId := pid, quantity := q,
                  price := prod.price * (q : ℚ) } : CartItem)]).map
              (fun i => i.price)).sum),
           setCartItems db uid
             (cart.items ++
              [({ productId := pid, quantity := q,
                  price := prod.price * (q : ℚ) } : CartItem)]))) :=
  ⟨addItem_notFound, addItem_bump, addItem_fresh⟩

/-- C2 witness: on the sample stores — unknown product 99 answers 404;
re-adding product 5 (3 more) bumps the line to quantity 5 leaving price 20 and
answers total 20; a fresh add of 2 Widgets answers total 20. -/
theorem c2_addItem_spec_witness :
    addItem wDB 1 99 2 = (.notFound, wDB) ∧
    addItem wDBline 1 5 3 =
      (.ok (((([] : List CartItem) ++
          { productId := 5, quantity := 2 + 3, price := 20 : CartItem } :: []).map
          (fun i => i.price)).sum),
       setCartItems wDBline 1
         (([] : List CartItem) ++
          { productId := 5, quantity := 2 + 3, price := 20 : CartItem } :: [])) ∧
    addItem wDB 1 5 2 =
      (.ok (((([] : List CartItem) ++
          [({ productId := 5, quantity := 2,
              price := wProduct.price * (2 : ℚ) } : CartItem)]).map
          (fun i => i.price)).sum),
       setCartItems wDB 1
         (([] : List CartItem) ++
          [({ productId := 5, quantity := 2,
              price := wProduct.price * (2 : ℚ) } : CartItem)])) :=
  ⟨c2_addItem_spec.1 wDB 1 99 2 (by decide) (by decide),
   c2_addItem_spec.2.1 wDBline 1 5 3 wProduct
     { user_id := 1, items := [{ productId := 5, quantity := 2, price := 20 }] }
     [] { productId := 5, quantity := 2, price := 20 } []
     (by decide) (by decide) (by decide) (by decide) (by decide) (by decide),
   c2_addItem_spec.2.2 wDB 1 5 2 wProduct { user_id := 1, items := [] }
     (by decide) (by decide) (by decide) (by decide)⟩

/-- C7: `removeItem` drops every line for the product and answers 200 with the
sum of the remaining line prices; when no line for the product exists the cart
is unchanged and the unchanged total is returned — still a 200, never an
error. -/
theorem c7_removeItem_spec (db : DB) (uid pid : Int) (cart : CartRow)
    (hc : findCart db uid = some cart) :
    removeItem db uid pid =
      (.ok (((cart.items.filter (fun i => i.productId != pid)).map
          (fun i => i.price)).sum),
       setCartItems db uid (cart.items.filter (fun i => i.productId != pid))) ∧
    (cart.items.all (fun i => i.productId != pid) = true →
      removeItem db uid pid =
        (.ok ((cart.items.map (fun i => i.price)).sum),
         setCartItems db uid cart.items) ∧
      findCart (removeItem db uid pid).2 uid = some cart) := by
  have heq := removeItem_eq db uid pid cart hc
  refine ⟨heq, fun hall => ?_⟩
  rw [filter_ne_eq_self cart.items pid hall] at heq
  refine ⟨heq, ?_⟩
  rw [heq]
  dsimp only
  rw [findCart_setCartItems, hc]
  rfl

/-- C7 witness: removing the absent product 99 from the sample cart leaves the
line (price 20) in place and answers the unchanged total, with no error. -/
theorem c7_removeItem_spec_witness :
    removeItem wDBline 1 99 =
      (.ok ((([{ productId := 5, quantity := 2, price := 20 }] :
          List CartItem).map (fun i => i.price)).sum),
       setCartItems wDBline 1 [{ productId := 5, quantity := 2, price := 20 }]) ∧
    findCart (removeItem wDBline 1 99).2 1 =
      some { user_id := 1,
             items := [{ productId := 5, quantity := 2, price := 20 }] } :=
  (c7_removeItem_spec wDBline 1 99
    { user_id := 1, items := [{ productId := 5, quantity := 2, price := 20 }] }
    (by decide)).2 (by decide)

/-- C3: the page slice and the total count of `listProducts` are computed over
one identical filter predicate — `totalCount` is the length of exactly the
filtered list the slice is drawn from — and that predicate is the conjunction
of the supplied filters, with `search` a case-insensitive substring match on
the product name. -/
theorem c3_filter_count_agree (db : DB) (q : ListQuery) (p : Product)
    (hv : validListQuery q = true) :
    listProducts db q = .ok
      { products := ((db.products.filter (whereMatches q)).drop
            ((q.page.getD 1 - 1) * q.limit.getD 10).toNat).take
            (q.limit.getD 10).toNat,
        totalCount := (db.products.filter (whereMatches q)).length,
        currentPage := q.page.getD 1,
        totalPages := ((db.products.filter (whereMatches q)).length +
            (q.limit.getD 10).toNat - 1) / (q.limit.getD 10).toNat } ∧
    (whereMatches q p = true ↔
      ((∀ m ∈ q.minPrice, m ≤ p.price) ∧
       (∀ m ∈ q.maxPrice, p.price ≤ m) ∧
       (∀ c ∈ q.category, p.category_id = c) ∧
       (∀ s ∈ q.search,
          charsContain s.toLower.data p.name.toLower.data = true))) := by
  refine ⟨listProducts_ok db q hv, ?_⟩
  unfold whereMatches iContains
  simp only [Bool.and_eq_true, optionHolds_iff, decide_eq_true_eq, beq_iff_eq,
    and_assoc]

/-- C3 witness: on the two-product sample store, the query
(minPrice 6, maxPrice 12, category 1, search "WID") slices and counts the same
single-element filtered list, and the predicate decomposes conjunctively with
"WID" matching "Widget" case-insensitively. -/
theorem c3_filter_count_agree_witness :
    listProducts wDBpage
      { page := some 1, limit := some 10, minPrice := some 6,
        maxPrice := some 12, category := some 1, search := some "WID" } = .ok
      { products := ((wDBpage.products.filter (whereMatches
            { page := some 1, limit := some 10, minPrice := some 6,
              maxPrice := some 12, category := some 1,
              search := some "WID" })).drop
            ((((some (1 : Int)).getD 1 - 1) * (some (10 : Int)).getD 10).toNat)).take
            (((some (10 : Int)).getD 10).toNat),
        totalCount := (wDBpage.products.filter (whereMatches
            { page := some 1, limit := some 10, minPrice := some 6,
              maxPrice := some 12, category := some 1,
              search := some "WID" })).length,
        currentPage := (some (1 : Int)).getD 1,
        totalPages := ((wDBpage.products.filter (whereMatches
            { page := some 1, limit := some 10, minPrice := some 6,
              maxPrice := some 12, category := some 1,
              search := some "WID" })).length +
            (((some (10 : Int)).getD 10).toNat) - 1) /
            (((some (10 : Int)).getD 10).toNat) } ∧
    (whereMatches
        { page := some 1, limit := some 10, minPrice := some 6,
          maxPrice := some 12, category := some 1, search := some "WID" }
        wProduct = true ↔
      ((∀ m ∈ some (6 : ℚ), m ≤ wProduct.price) ∧
       (∀ m ∈ some (12 : ℚ), wProduct.price ≤ m) ∧
       (∀ c ∈ some (1 : Int), wProduct.category_id = c) ∧
       (∀ s ∈ some "WID",
          charsContain s.toLower.data wProduct.name.toLower.data = true))) :=
  c3_filter_count_agree wDBpage
    { page := some 1, limit := some 10, minPrice := some 6,
      maxPrice := some 12, category := some 1, search := some "WID" }
    wProduct (by decide)

/-- C4 (amended): `listProducts` returns at most `limit` items,
`totalPages = ceil(totalCount / limit)`, the page is empty whenever
`(page - 1) * limit >= totalCount` (not `page * limit >= totalCount` as
claimed), and omitted `page` and `limit` behave exactly as `page = 1`,
`limit = 10`. -/
theorem c4_pagination_bounds (db : DB) (q : ListQuery)
    (mp xp : Option ℚ) (cat : Option Int) (s : Option String)
    (hv : validListQuery q = true) :
    (∃ pg, listProducts db q = .ok pg ∧
      pg.products.length ≤ (q.limit.getD 10).toNat ∧
      pg.totalPages = ⌈(pg.totalCount : ℚ) / (((q.limit.getD 10).toNat : ℕ) : ℚ)⌉₊ ∧
      (pg.totalCount ≤ ((q.page.getD 1 - 1) * q.limit.getD 10).toNat →
        pg.products = [])) ∧
    listProducts db { page := none, limit := none, minPrice := mp,
                      maxPrice := xp, category := cat, search := s } =
      listProducts db { page := some 1, limit := some 10, minPrice := mp,
                        maxPrice := xp, category := cat, search := s } := by
  constructor
  · refine ⟨_, listProducts_ok db q hv, ?_, ?_, ?_⟩
    · exact List.length_take_le _ _
    · dsimp only
      rw [natCeil_cast_div _ _ (validListQuery_limit_pos q hv)]
    · intro h
      dsimp only at h ⊢
      rw [List.drop_eq_nil_of_le h, List.take_nil]
  · rfl

/-- C4 witness: the default-parameter two-product listing satisfies the
bounds, and omitted page/limit agree with page 1, limit 10. -/
theorem c4_pagination_bounds_witness :
    (∃ pg, listProducts wDBpage
        { page := none, limit := none, minPrice := none, maxPrice := none,
          category := none, search := none } = .ok pg ∧
      pg.products.length ≤ ((none : Option Int).getD 10).toNat ∧
      pg.totalPages =
        ⌈(pg.totalCount : ℚ) / ((((none : Option Int).getD 10).toNat : ℕ) : ℚ)⌉₊ ∧
      (pg.totalCount ≤
          (((none : Option Int).getD 1 - 1) * (none : Option Int).getD 10).toNat →
        pg.products = [])) ∧
    listProducts wDBpage
      { page := none, limit := none, minPrice := none, maxPrice := none,
        category := none, search := none } =
      listProducts wDBpage
        { page := some 1, limit := some 10, minPrice := none, maxPrice := none,
          category := none, search := none } :=
  c4_pagination_bounds wDBpage
    { page := none, limit := none, minPrice := none, maxPrice := none,
      category := none, search := none } none none none none (by decide)

/-- C4 counterexample: with two matching products, page 2 and limit 1 satisfy
`page * limit >= totalCount` yet the returned page is non-empty — the claimed
emptiness condition is off by one page. -/
theorem c4_emptypage_counterexample :
    listProducts wDBpage
      { page := some 2, limit := some 1, minPrice := none, maxPrice := none,
        category := none, search := none } =
      .ok { products := [wGadget], totalCount := 2, currentPage := 2,
            totalPages := 2 } ∧
    2 * 1 ≥ 2 ∧ ([wGadget] : List Product) ≠ [] := by
  refine ⟨by decide, by decide, by decide⟩

/-- C5: a customer identity is stopped with 403 by the product mutations
(`authorizeAdmin` is attached there and no row changes), but the category
create route never attaches `authorizeAdmin`, so the same customer identity
creates a category row successfully — the claimed role gate on category
mutations is absent from the code. -/
theorem c5_category_gate_missing :
    createProduct wDB { userId := 1, role := "customer" } wBody
        (fun _ => none) = (.forbidden, wDB) ∧
    updateProduct wDB { userId := 1, role := "customer" } 5 wBody
        (fun s => s) = (.forbidden, wDB) ∧
    createCategory wDB { userId := 1, role := "customer" } "Electronics" none =
      (.created { id := 2, name := "Electronics", description := none },
       { wDB with
           categories := [{ id := 1, name := "Cat", description := none },
                          { id := 2, name := "Electronics", description := none }],
           nextCategoryId := 3 }) := by
  refine ⟨by decide, by decide, by decide⟩

/-- C6 counterexample: `placeOrder` accepts a caller-supplied total of 999 for
a single line priced 10 and stores that total verbatim — the stored order's
total does not equal the sum of its stored line prices. -/
theorem c6_total_counterexample :
    (placeOrder wDB 1 [{ productId := 5, quantity := 1, price := 10 }] 999).1 =
      .created { id := 1, user_id := 1,
                 items := [{ productId := 5, quantity := 1, price := 10 }],
                 total_price := 999, order_date := 0 } ∧
    ¬((999 : ℚ) =
      (([{ productId := 5, quantity := 1, price := (10 : ℚ) }] :
          List CartItem).map (fun i => i.price)).sum) := by
  refine ⟨by decide, ?_⟩
  simp only [List.map_cons, List.map_nil, List.sum_cons, List.sum_nil, add_zero]
  norm_num

/-- C6 (amended): `placeOrder` persists exactly the caller-supplied items and
total (stamped with the current clock) — it does not check that the total is
the sum of the stored line prices — and orders are immutable once placed: no
embedded operation modifies or removes an existing order row. -/
theorem c6_order_snapshot_immutable :
    (∀ (db : DB) (uid : Int) (items : List CartItem) (total : ℚ),
        validOrderItems items = true → 0 ≤ total →
        placeOrder db uid items total =
          (.created { id := db.nextOrderId, user_id := uid, items := items,
                      total_price := total, order_date := db.clock },
           { db with
               orders := db.orders ++
                 [{ id := db.nextOrderId, user_id := uid, items := items,
                    total_price := total, order_date := db.clock }],
               nextOrderId := db.nextOrderId + 1,
               clock := db.clock + 1 })) ∧
    (∀ (db : DB) (uid : Int) (items : List CartItem) (total : ℚ)
        (o : OrderRow), o ∈ db.orders →
        o ∈ ((placeOrder db uid items total).2).orders) ∧
    (∀ (db : DB) (uid pid q : Int),
        ((addItem db uid pid q).2).orders = db.orders) ∧
    (∀ (db : DB) (uid pid : Int),
        ((removeItem db uid pid).2).orders = db.orders) ∧
    (∀ (db : DB) (i : Identity) (pid : Int) (b : ProductBody)
        (u : String → String),
        ((updateProduct db i pid b u).2).orders = db.orders) ∧
    (∀ (db : DB) (i : Identity) (b : ProductBody) (u : String → Option String),
        ((createProduct db i b u).2).orders = db.orders) ∧
    (∀ (db : DB) (i : Identity) (n : String) (d : Option String),
        ((createCategory db i n d).2).orders = db.orders) ∧
    (∀ (db : DB) (e p r : String),
        ((signup db e p r).2).orders = db.orders) := by
  refine ⟨placeOrder_ok, ?_, fun db uid pid q => (addItem_frame db uid pid q).1,
    fun db uid pid => (removeItem_frame db uid pid).1,
    fun db i pid b u => (updateProduct_frame db i pid b u).2.1,
    createProduct_orders, createCategory_orders, signup_orders⟩
  intro db uid items total o ho
  unfold placeOrder
  split
  · exact ho
  · exact List.mem_append_left _ ho

/-- C6 witness: placing an order for the cart's line (price 20, total 20)
stores exactly those items and that total, and an order already present in the
two-order sample store survives a later `placeOrder`. -/
theorem c6_order_snapshot_immutable_witness :
    placeOrder wDB 1 [{ productId := 5, quantity := 2, price := 20 }] 20 =
      (.created { id := 1, user_id := 1,
                  items := [{ productId := 5, quantity := 2, price := 20 }],
                  total_price := 20, order_date := 0 },
       { wDB with
           orders := [{ id := 1, user_id := 1,
                        items := [{ productId := 5, quantity := 2, price := 20 }],
                        total_price := 20, order_date := 0 }],
           nextOrderId := 2,
           clock := 1 }) ∧
    ({ id := 1, user_id := 1,
       items := [{ productId := 5, quantity := 1, price := 10 }],
       total_price := 10, order_date := 3 } : OrderRow) ∈
      ((placeOrder wDBorders 1
          [{ productId := 5, quantity := 2, price := 20 }] 20).2).orders := by
  constructor
  · have h := c6_order_snapshot_immutable.1 wDB 1
      [{ productId := 5, quantity := 2, price := 20 }] 20 (by decide) (by decide)
    exact h
  · exact c6_order_snapshot_immutable.2.1 wDBorders 1
      [{ productId := 5, quantity := 2, price := 20 }] 20 _ (by decide)

/-- C8: after a valid `placeOrder` with items `I` and total `T`, `listOrders`
for the same user contains an order carrying exactly `I` and `T`; and for
every store and user, `listOrders` returns a permutation of all of that user's
order rows, sorted most recent (largest `order_date`) first. -/
theorem c8_roundtrip_and_ordering (db : DB) (uid : Int)
    (items : List CartItem) (total : ℚ) (db2 : DB) (u2 : Int)
    (hv : validOrderItems items = true) (ht : 0 ≤ total) :
    (∃ o ∈ listOrders (placeOrder db uid items total).2 uid,
        o.items = items ∧ o.total_price = total) ∧
    (listOrders db2 u2).Perm
      (db2.orders.filter (fun o => o.user_id == u2)) ∧
    List.Sorted (fun a b : OrderRow => b.order_date ≤ a.order_date)
      (listOrders db2 u2) := by
  refine ⟨?_, sortByDateDesc_perm _, sortByDateDesc_sorted _⟩
  rw [placeOrder_ok db uid items total hv ht]
  dsimp only
  refine ⟨{ id := db.nextOrderId, user_id := uid, items := items,
            total_price := total, order_date := db.clock }, ?_, rfl, rfl⟩
  unfold listOrders
  apply (sortByDateDesc_perm _).mem_iff.mpr
  apply List.mem_filter.mpr
  exact ⟨List.mem_append_right _ (List.mem_singleton_self _), by simp⟩

/-- C8 witness: placing the cart's order on the sample store makes it appear
in the user's order list, and the two-order history lists as a sorted
permutation of the user's rows, newest first. -/
theorem c8_roundtrip_and_ordering_witness :
    (∃ o ∈ listOrders
        (placeOrder wDB 1 [{ productId := 5, quantity := 2, price := 20 }]
          20).2 1,
        o.items = [{ productId := 5, quantity := 2, price := 20 }] ∧
        o.total_price = 20) ∧
    (listOrders wDBorders 1).Perm
      (wDBorders.orders.filter (fun o => o.user_id == 1)) ∧
    List.Sorted (fun a b : OrderRow => b.order_date ≤ a.order_date)
      (listOrders wDBorders 1) :=
  c8_roundtrip_and_ordering wDB 1
    [{ productId := 5, quantity := 2, price := 20 }] 20 wDBorders 1
    (by decide) (by decide)

/-- C9 (amended): signup answers 400 on a malformed email, a password shorter
than 6, or a role outside admin/customer; on success it stores the salted
hash — never the plaintext — and returns only id, email and role; but an
already-registered email is answered with the generic 500 storage error, not
a conflict response. -/
theorem c9_signup_spec :
    (∀ (db : DB) (email pw role : String), isEmailShape email = false →
        signup db email pw role = (.badRequest, db)) ∧
    (∀ (db : DB) (email pw role : String), isEmailShape email = true →
        pw.length < 6 → signup db email pw role = (.badRequest, db)) ∧
    (∀ (db : DB) (email pw role : String), isEmailShape email = true →
        6 ≤ pw.length → (role == "admin" || role == "customer") = false →
        signup db email pw role = (.badRequest, db)) ∧
    (∀ (db : DB) (email pw role : String), isEmailShape email = true →
        6 ≤ pw.length → (role == "admin" || role == "customer") = true →
        db.users.any (fun u => u.email == email) = true →
        signup db email pw role = (.serverError, db) ∧
        signupStatus (signup db email pw role).1 = 500) ∧
    (∀ (db : DB) (email pw role : String), isEmailShape email = true →
        6 ≤ pw.length → (role == "admin" || role == "customer") = true →
        db.users.any (fun u => u.email == email) = false →
        signup db email pw role =
          (.created { id := db.nextUserId, email := email, role := role },
           { db with
               users := db.users ++
                 [{ id := db.nextUserId, email := email,
                    password := bcryptHash 10 pw, role := role }],
               nextUserId := db.nextUserId + 1 }) ∧
        bcryptHash 10 pw ≠ pw) := by
  refine ⟨?_, ?_, ?_, ?_, ?_⟩
  · intro db email pw role h1
    unfold signup
    rw [if_pos h1]
  · intro db email pw role h1 h2
    unfold signup
    rw [if_neg (by simp [h1]), if_pos h2]
  · intro db email pw role h1 h2 h3
    unfold signup
    rw [if_neg (by simp [h1]), if_neg (by omega), if_pos h3]
  · intro db email pw role h1 h2 h3 h4
    have h : signup db email pw role = (.serverError, db) := by
      unfold signup
      rw [if_neg (by simp [h1]), if_neg (by omega), if_neg (by simp [h3]),
        if_pos h4]
    exact ⟨h, by rw [h]; rfl⟩
  · intro db email pw role h1 h2 h3 h4
    have h : signup db email pw role =
        (.created { id := db.nextUserId, email := email, role := role },
         { db with
             users := db.users ++
               [{ id := db.nextUserId, email := email,
                  password := bcryptHash 10 pw, role := role }],
             nextUserId := db.nextUserId + 1 }) := by
      unfold signup
      rw [if_neg (by simp [h1]), if_neg (by omega), if_neg (by simp [h3]),
        if_neg (by simp [h4])]
    exact ⟨h, bcryptHash_ne 10 pw⟩

/-- C9 witness: the three 400 rejections, the 500 on a duplicate email, and a
successful signup storing the hash (which differs from the plaintext) on the
sample stores. -/
theorem c9_signup_spec_witness :
    signup wDB "bad" "secret1" "customer" = (.badRequest, wDB) ∧
    signup wDB "a@b.com" "abc" "customer" = (.badRequest, wDB) ∧
    signup wDB "a@b.com" "secret1" "root" = (.badRequest, wDB) ∧
    (signup wDBdup "a@b.com" "secret1" "customer" = (.serverError, wDBdup) ∧
     signupStatus (signup wDBdup "a@b.com" "secret1" "customer").1 = 500) ∧
    (signup wDB "b@c.com" "secret1" "admin" =
       (.created { id := 2, email := "b@c.com", role := "admin" },
        { wDB with
            users := wDB.users ++
              [{ id := 2, email := "b@c.com",
                 password := bcryptHash 10 "secret1", role := "admin" }],
            nextUserId := 3 }) ∧
     bcryptHash 10 "secret1" ≠ "secret1") :=
  ⟨c9_signup_spec.1 wDB "bad" "secret1" "customer" (by decide),
   c9_signup_spec.2.1 wDB "a@b.com" "abc" "customer" (by decide) (by decide),
   c9_signup_spec.2.2.1 wDB "a@b.com" "secret1" "root" (by decide) (by decide)
     (by decide),
   c9_signup_spec.2.2.2.1 wDBdup "a@b.com" "secret1" "customer" (by decide)
     (by decide) (by decide) (by decide),
   c9_signup_spec.2.2.2.2 wDB "b@c.com" "secret1" "admin" (by decide)
     (by decide) (by decide) (by decide)⟩

/-- C9 counterexample: signing up with the already-registered email answers
the generic 500 — not a 409/400 conflict response as the claim requires. -/
theorem c9_conflict_counterexample :
    signup wDBdup "a@b.com" "secret1" "customer" = (.serverError, wDBdup) ∧
    signupStatus (signup wDBdup "a@b.com" "secret1" "customer").1 = 500 ∧
    ¬(signupStatus (signup wDBdup "a@b.com" "secret1" "customer").1 = 409 ∨
      signupStatus (signup wDBdup "a@b.com" "secret1" "customer").1 = 400) := by
  refine ⟨by decide, by decide, by decide⟩

/-- C10 counterexample: on a product stored with image URL `http://img/old`,
an admin `updateProduct` with a valid body omitting `image` attempts to write
`image_url = null`, violates the schema's `NOT NULL` constraint, answers 500,
and the stored row still carries `http://img/old` — the previously stored
image URL is preserved, never overwritten with `null`. -/
theorem c10_notnull_counterexample :
    updateProduct wDBimg wAdmin 5 wBody (fun s => s) = (.serverError, wDBimg) ∧
    findProduct (updateProduct wDBimg wAdmin 5 wBody (fun s => s)).2 5 =
      some { wProduct with image_url := "http://img/old" } := by
  refine ⟨by decide, by decide⟩

/-- C10 (amended): an admin `updateProduct` whose body omits `image` computes
`image_url = null` and the `UPDATE` of the existing row then violates the
schema's `image_url TEXT NOT NULL` constraint: the handler answers 500 and the
stored row — its previously stored image URL included — is unchanged; no
update that omits the image ever succeeds.  An update supplying an image
succeeds and overwrites every column, `image_url` becoming the freshly
uploaded URL. -/
theorem c10_omitted_image_update_fails (db : DB) (identity : Identity)
    (pid : Int) (b b2 : ProductBody) (prod : Product)
    (upload : String → String) (img : String)
    (hrole : identity.role = "admin") (hb : validProductBody b = true)
    (himg : b.image = none) (hp : findProduct db pid = some prod)
    (hb2 : validProductBody b2 = true) (himg2 : b2.image = some img) :
    updateProduct db identity pid b upload = (.serverError, db) ∧
    findProduct (updateProduct db identity pid b upload).2 pid = some prod ∧
    updateProduct db identity pid b2 upload =
      (.ok { prod with name := b2.name, description := b2.description,
                       price := b2.price, stock := b2.stock,
                       category_id := b2.category_id,
                       image_url := upload img },
       { db with products := db.products.map (fun p =>
           if p.id == pid then
             { p with name := b2.name, description := b2.description,
                      price := b2.price, stock := b2.stock,
                      category_id := b2.category_id,
                      image_url := upload img }
           else p) }) := by
  have h1 : updateProduct db identity pid b upload = (.serverError, db) := by
    unfold updateProduct
    rw [if_neg (by simp [hrole]), if_neg (by simp [hb])]
    have hany := any_id_of_findProduct db pid prod hp
    rw [if_neg (by simp [hany]), himg]
    rfl
  refine ⟨h1, ?_,
    updateProduct_ok db identity pid b2 prod upload img hrole hb2 himg2 hp⟩
  rw [h1]
  exact hp

/-- C10 witness: on the sample store, the image-omitting update answers 500
leaving `http://img/old` stored, and the same update carrying image `newpic`
succeeds and overwrites `image_url` with the uploaded URL. -/
theorem c10_omitted_image_update_fails_witness :
    updateProduct wDBimg wAdmin 5 wBody (fun s => s) = (.serverError, wDBimg) ∧
    findProduct (updateProduct wDBimg wAdmin 5 wBody (fun s => s)).2 5 =
      some { wProduct with image_url := "http://img/old" } ∧
    updateProduct wDBimg wAdmin 5 wBodyImg (fun s => s) =
      (.ok { id := 5, name := wBodyImg.name,
             description := wBodyImg.description, price := wBodyImg.price,
             stock := wBodyImg.stock, category_id := wBodyImg.category_id,
             image_url := "newpic" },
       { wDBimg with products := wDBimg.products.map (fun p =>
           if p.id == (5 : Int) then
             { p with name := wBodyImg.name,
                      description := wBodyImg.description,
                      price := wBodyImg.price, stock := wBodyImg.stock,
                      category_id := wBodyImg.category_id,
                      image_url := "newpic" }
           else p) }) :=
  c10_omitted_image_update_fails wDBimg wAdmin 5 wBody wBodyImg
    { wProduct with image_url := "http://img/old" } (fun s => s) "newpic"
    (by decide) (by decide) (by decide) (by decide) (by decide) (by decide)

end ECom
